import Mathlib

/-!
Shallow embedding of `src/scripts/rkn_registry_check.py`, a single-file CLI
tool that checks a tax identifier (INN) against the Roskomnadzor registry of
personal-data operators, using either Playwright browser automation or plain
HTTP requests.

Modelling conventions:
* Python strings are Lean `String`s; Python `str.strip`, `str.isdigit`,
  `str.lower`, `str.replace(" ", "")` and substring `in` are modelled by the
  `py*` helpers below, faithful for the ASCII and Cyrillic characters the
  program uses.
* Third-party library calls (Playwright, requests, BeautifulSoup) are opaque:
  each strategy takes a "world" structure describing what those calls return,
  including the points where they may raise an exception (browser launch,
  `page.goto`, `wait_for_load_state`, `row.inner_text`, the final
  `browser.close`, and the two HTTP requests).  BeautifulSoup parsing is
  modelled at the boundary of `get_text(strip=True)`: the world supplies the
  parsed tables as lists of rows of cell texts.
* The module-level flags `HAS_PLAYWRIGHT` / `HAS_REQUESTS` live in the worlds.
-/

/-- Python whitespace as stripped by `str.strip()` (ASCII subset, which is all
the program ever feeds it). -/
def isPySpace (c : Char) : Bool :=
  c == ' ' || c == '\t' || c == '\n' || c == '\r' || c == Char.ofNat 11 || c == Char.ofNat 12

/-- Strip leading and trailing whitespace from a character list. -/
def stripList (l : List Char) : List Char :=
  ((l.dropWhile isPySpace).reverse.dropWhile isPySpace).reverse

/-- Python `s.strip()`. -/
def pyStrip (s : String) : String :=
  String.mk (stripList s.toList)

/-- Python `s.isdigit()`: nonempty and every character a decimal digit. -/
def pyIsdigit (s : String) : Bool :=
  !s.toList.isEmpty && s.toList.all Char.isDigit

/-- Python `str.lower` on one character, covering ASCII letters and the
Cyrillic range the program's markers use. -/
def pyLowerChar (c : Char) : Char :=
  if 'A' ≤ c && c ≤ 'Z' then Char.ofNat (c.toNat + 32)
  else if 0x410 ≤ c.toNat && c.toNat ≤ 0x42F then Char.ofNat (c.toNat + 0x20)
  else if c.toNat == 0x401 then Char.ofNat 0x451
  else c

/-- Python `s.lower()`. -/
def pyLower (s : String) : String :=
  String.mk (s.toList.map pyLowerChar)

/-- Is `pat` a prefix of `hay`? -/
def startsList : List Char → List Char → Bool
  | [], _ => true
  | _ :: _, [] => false
  | p :: ps, h :: hs => p == h && startsList ps hs

/-- Is `pat` a contiguous substring of `hay`?  Models Python `pat in hay`. -/
def containsList (pat : List Char) : List Char → Bool
  | [] => pat.isEmpty
  | h :: hs => startsList pat (h :: hs) || containsList pat hs

/-- Python `pat in hay` on strings. -/
def containsSub (hay pat : String) : Bool :=
  containsList pat.toList hay.toList

/-- Python `s.replace(" ", "")`: delete every space character. -/
def pyRemoveSpaces (s : String) : String :=
  String.mk (s.toList.filter (fun c => !(c == ' ')))

/-- The record returned by every code path: dataclass `RKNOperatorInfo`
(`src/scripts/rkn_registry_check.py` lines 34-48). -/
structure RKNOperatorInfo where
  found : Bool
  inn : String
  registration_number : Option String := none
  name : Option String := none
  registration_date : Option String := none
  start_date : Option String := none
  operator_type : Option String := none
  region : Option String := none
  address : Option String := none
  basis : Option String := none
  error : Option String := none
  source_url : Option String := none
deriving Repr, DecidableEq

/-- The fresh record `RKNOperatorInfo(found=False, inn=inn)`. -/
def emptyInfo (inn : String) : RKNOperatorInfo :=
  { found := false, inn := inn }

/-- validate_inn (lines 51-58): strip, require all decimal digits
(`str.isdigit`), and length 10 or 12. -/
def validate_inn (inn : String) : Bool :=
  let inn := pyStrip inn
  if !pyIsdigit inn then false
  else if !(inn.length == 10 || inn.length == 12) then false
  else true

/-- Try to match the regex `\d{2}-\d+-\d+` anchored at the head of `l`
(as `re.search` tries at each position): exactly two digits, a hyphen, a
maximal nonempty digit run, a hyphen, a maximal nonempty digit run. -/
def matchRegAt (l : List Char) : Option String :=
  match l with
  | a :: b :: '-' :: rest =>
    if a.isDigit && b.isDigit then
      match rest.span Char.isDigit with
      | ([], _) => none
      | (d1, '-' :: r2) =>
        match r2.span Char.isDigit with
        | ([], _) => none
        | (d2, _) => some (String.mk ([a, b, '-'] ++ d1 ++ ['-'] ++ d2))
      | (_, _) => none
    else none
  | _ => none

/-- Python `re.search(r'(\d{2}-\d+-\d+)', text)`: leftmost match wins
(line 168 of the source). -/
def reSearchReg : List Char → Option String
  | [] => none
  | c :: rest =>
    match matchRegAt (c :: rest) with
    | some m => some m
    | none => reSearchReg rest

/-- Try to match the regex `\d{2}\.\d{2}\.\d{4}` anchored at the head. -/
def matchDateAt (l : List Char) : Option String :=
  match l with
  | a :: b :: '.' :: c :: d :: '.' :: e :: f :: g :: h :: _ =>
    if [a, b, c, d, e, f, g, h].all Char.isDigit then
      some (String.mk [a, b, '.', c, d, '.', e, f, g, h])
    else none
  | _ => none

/-- Python `re.search(r'(\d{2}\.\d{2}\.\d{4})', text)` (line 183). -/
def reSearchDate : List Char → Option String
  | [] => none
  | c :: rest =>
    match matchDateAt (c :: rest) with
    | some m => some m
    | none => reSearchDate rest

/-- Split a character list at every occurrence of `sep`
(Python `str.split(sep)` semantics, no collapsing of empty pieces). -/
def splitOnChar (sep : Char) : List Char → List (List Char)
  | [] => [[]]
  | c :: rest =>
    if c == sep then [] :: splitOnChar sep rest
    else
      match splitOnChar sep rest with
      | [] => [[c]]
      | h :: t => (c :: h) :: t

/-- Python `text.split(chr(10))`, as used at line 174. -/
def pySplitLines (s : String) : List String :=
  (splitOnChar (Char.ofNat 10) s.toList).map String.mk

/-- Name heuristic, lines 174-180: split the row text on newlines, strip each
line, and take the first line longer than 10 characters that is not all digits
and contains one of the legal-entity markers. -/
def findName (text : String) : Option String :=
  ((pySplitLines text).map pyStrip).find? (fun line =>
    line.length > 10 && !pyIsdigit line &&
      (containsSub line "ООО" || containsSub line "АО" ||
       containsSub line "ИП" || containsSub line "ПАО"))

/-- One iteration of the extraction loop over result rows (lines 164-185):
each of the three fields is written only when a pattern matches and the field
is still unset. -/
def pwExtractRow (r : RKNOperatorInfo) (text : String) : RKNOperatorInfo :=
  let r1 :=
    match reSearchReg text.toList, r.registration_number with
    | some m, none => { r with registration_number := some m }
    | _, _ => r
  let r2 :=
    match r1.name with
    | none =>
      match findName text with
      | some n => { r1 with name := some n }
      | none => r1
    | some _ => r1
  match reSearchDate text.toList, r2.registration_date with
  | some m, none => { r2 with registration_date := some m }
  | _, _ => r2

/-- The extraction loop over the rows (lines 164-185).  Each row's
`inner_text()` call may raise (`Except.error msg`); the loop then stops with
the record mutated so far and the exception message. -/
def pwLoop (r : RKNOperatorInfo) : List (Except String String) → RKNOperatorInfo × Option String
  | [] => (r, none)
  | Except.error msg :: _ => (r, some msg)
  | Except.ok t :: rest => pwLoop (pwExtractRow r t) rest

/-- Exceptions a Playwright call can raise: `PlaywrightTimeout` or any other
exception carrying a message. -/
inductive PwExn where
  | timeout : PwExn
  | other : String → PwExn
deriving Repr, DecidableEq

/-- Everything the opaque Playwright library contributes to one run of
`check_rkn_registry_playwright`: the module flag, the outcome of each call
that the model lets raise, and the page content / url / result rows.
`closeExn` is the outcome of `browser.close()`, which runs inside the `try`
at every explicit close site (lines 112, 154 and 187) and may raise. -/
structure PwWorld where
  hasPlaywright : Bool
  launchExn : Option String
  gotoOutcome : Option PwExn
  innFieldFound : Bool
  searchBtnFound : Bool
  waitOutcome : Option PwExn
  content : String
  pageUrl : String
  rows : List (Except String String)
  closeExn : Option String
deriving Repr

/-- The observable outcome of one run of the browser strategy: the returned
record, whether a browser was launched, whether `browser.close()` completed on
the taken path, and whether the path left the `with sync_playwright()` block
via a caught exception (in which case the context manager's exit stops the
Playwright driver, which terminates the browser process). -/
structure PwRun where
  record : RKNOperatorInfo
  launched : Bool
  explicitClose : Bool
  exnCaught : Bool
deriving Repr, DecidableEq

/-- The zero-results check at line 152: `"Найдено: 0"` case-sensitively, the
other two phrases on the lower-cased page text. -/
def zeroResultsMarker (content : String) : Bool :=
  containsSub content "Найдено: 0" ||
    containsSub (pyLower content) "не найдено" ||
    containsSub (pyLower content) "нет данных"

/-- The record state at line 149: fresh record with `source_url` set to the
current page URL. -/
def pwBase (inn url : String) : RKNOperatorInfo :=
  { emptyInfo inn with source_url := some url }

/-- The record state at line 161, just after `result.found = True`. -/
def pwFoundRecord (inn url : String) : RKNOperatorInfo :=
  { pwBase inn url with found := true }

/-- Lines 147-187: after the form was submitted and the page settled, parse
the page content, run the extraction loop if result rows exist, and close the
browser.  Both `browser.close()` sites on these paths (line 154 on the
zero-results branch, line 187 otherwise) run inside the `try` and may raise,
in which case the handler at lines 191-192 overwrites the record's error. -/
def pwResults (w : PwWorld) (inn : String) : PwRun :=
  if zeroResultsMarker w.content then
    match w.closeExn with
    | some msg =>
      { record := { pwBase inn w.pageUrl with error := some ("Ошибка Playwright: " ++ msg) },
        launched := true, explicitClose := false, exnCaught := true }
    | none =>
      { record := pwBase inn w.pageUrl, launched := true, explicitClose := true, exnCaught := false }
  else
    let step :=
      if w.rows.isEmpty then (pwBase inn w.pageUrl, (none : Option String))
      else pwLoop (pwFoundRecord inn w.pageUrl) w.rows
    match step.2 with
    | some msg =>
      { record := { step.1 with error := some ("Ошибка Playwright: " ++ msg) },
        launched := true, explicitClose := false, exnCaught := true }
    | none =>
      match w.closeExn with
      | some msg =>
        { record := { step.1 with error := some ("Ошибка Playwright: " ++ msg) },
          launched := true, explicitClose := false, exnCaught := true }
      | none =>
        { record := step.1, launched := true, explicitClose := true, exnCaught := false }

/-- check_rkn_registry_playwright (lines 61-194), as a function of the world. -/
def check_rkn_registry_playwright (w : PwWorld) (inn : String) : PwRun :=
  if !w.hasPlaywright then
    { record := { emptyInfo inn with
        error := some "Playwright не установлен. Выполните: pip install playwright && playwright install chromium" },
      launched := false, explicitClose := false, exnCaught := false }
  else
    match w.launchExn with
    | some msg =>
      { record := { emptyInfo inn with error := some ("Ошибка Playwright: " ++ msg) },
        launched := false, explicitClose := false, exnCaught := true }
    | none =>
      match w.gotoOutcome with
      | some PwExn.timeout =>
        { record := { emptyInfo inn with error := some "Таймаут при загрузке страницы РКН" },
          launched := true, explicitClose := false, exnCaught := true }
      | some (PwExn.other msg) =>
        { record := { emptyInfo inn with error := some ("Ошибка Playwright: " ++ msg) },
          launched := true, explicitClose := false, exnCaught := true }
      | none =>
        if !w.innFieldFound then
          match w.closeExn with
          | some msg =>
            { record := { emptyInfo inn with error := some ("Ошибка Playwright: " ++ msg) },
              launched := true, explicitClose := false, exnCaught := true }
          | none =>
            { record := { emptyInfo inn with error := some "Не найдено поле ввода ИНН на странице" },
              launched := true, explicitClose := true, exnCaught := false }
        else
          match w.waitOutcome with
          | some PwExn.timeout =>
            { record := { emptyInfo inn with error := some "Таймаут при загрузке страницы РКН" },
              launched := true, explicitClose := false, exnCaught := true }
          | some (PwExn.other msg) =>
            { record := { emptyInfo inn with error := some ("Ошибка Playwright: " ++ msg) },
              launched := true, explicitClose := false, exnCaught := true }
          | none => pwResults w inn

/-- The browser session is considered released when either the explicit
`browser.close()` ran, or the path raised and the `with sync_playwright()`
context exit stopped the driver (terminating the browser). -/
def browserReleased (o : PwRun) : Bool :=
  o.explicitClose || o.exnCaught

/-- Exceptions a `requests` call can raise: `requests.RequestException`
(caught at line 264) or any other exception (line 266). -/
inductive HttpExn where
  | request : String → HttpExn
  | other : String → HttpExn
deriving Repr, DecidableEq

/-- The POST response as the strategy observes it: the body text, the tables
BeautifulSoup extracts from it (each table a list of `tr` rows, each row the
list of its `td` cell texts after `get_text(strip=True)`), and the final URL. -/
structure PostResp where
  text : String
  tables : List (List (List String))
  url : String
deriving Repr, DecidableEq

/-- Everything the opaque HTTP stack contributes to one run of
`check_rkn_registry_requests`: the module flag and the two request outcomes
(status plus body for the GET, the parsed response for the POST). -/
structure HttpWorld where
  hasRequests : Bool
  getOutcome : Except HttpExn (Nat × String)
  postOutcome : Except HttpExn PostResp
deriving Repr

/-- The observable outcome of one run of the HTTP strategy: the returned
record and whether the search POST was sent at all. -/
structure HttpRun where
  record : RKNOperatorInfo
  postSent : Bool
deriving Repr, DecidableEq

/-- Render an `HttpExn` into the error string the handlers at lines 264-267
produce. -/
def httpExnMsg : HttpExn → String
  | HttpExn.request msg => "Ошибка запроса: " ++ msg
  | HttpExn.other msg => "Ошибка: " ++ msg

/-- The bot-defense check at line 229: the security-check text
case-sensitively, or `"captcha"` on the lower-cased body. -/
def botDefenseMarker (body : String) : Bool :=
  containsSub body "Проверка безопасности" || containsSub (pyLower body) "captcha"

/-- Lines 248-260: look at the first table BeautifulSoup finds; if it has
more than one row, the second row is the first result: `found` is set, and
when that row has at least two cells their texts become the registration
number and the name. -/
def httpParseTable (inn : String) (tables : List (List (List String))) : RKNOperatorInfo :=
  match tables.head? with
  | none => emptyInfo inn
  | some t =>
    if 1 < t.length then
      if 2 ≤ (t.getD 1 []).length then
        { emptyInfo inn with
            found := true
            registration_number := (t.getD 1 [])[0]?
            name := (t.getD 1 [])[1]? }
      else { emptyInfo inn with found := true }
    else emptyInfo inn

/-- check_rkn_registry_requests (lines 197-269), as a function of the world. -/
def check_rkn_registry_requests (w : HttpWorld) (inn : String) : HttpRun :=
  if !w.hasRequests then
    { record := { emptyInfo inn with
        error := some "requests/bs4 не установлены. Выполните: pip install requests beautifulsoup4" },
      postSent := false }
  else
    match w.getOutcome with
    | Except.error e =>
      { record := { emptyInfo inn with error := some (httpExnMsg e) }, postSent := false }
    | Except.ok (status, body) =>
      if !(status == 200) then
        { record := { emptyInfo inn with
            error := some ("Ошибка загрузки страницы: HTTP " ++ toString status) },
          postSent := false }
      else if botDefenseMarker body then
        { record := { emptyInfo inn with
            error := some "Сайт требует прохождение проверки безопасности. Используйте Playwright." },
          postSent := false }
      else
        match w.postOutcome with
        | Except.error e =>
          { record := { emptyInfo inn with error := some (httpExnMsg e) }, postSent := true }
        | Except.ok resp =>
          if containsSub resp.text "Найдено: 0" then
            { record := emptyInfo inn, postSent := true }
          else
            { record := { httpParseTable inn resp.tables with source_url := some resp.url },
              postSent := true }

/-- The acquisition method requested on the command line (`--method`). -/
inductive Method where
  | auto : Method
  | playwright : Method
  | requests : Method
deriving Repr, DecidableEq

/-- Which acquisition strategy the selector actually invoked. -/
inductive Invoked where
  | noCall : Invoked
  | pw : Invoked
  | http : Invoked
deriving Repr, DecidableEq

/-- The normalization at line 284: `inn.strip().replace(" ", "")`. -/
def pyNormalizeInn (s : String) : String :=
  pyRemoveSpaces (pyStrip s)

/-- The invalid-input message at line 290. -/
def invalidInnMsg (inn : String) : String :=
  "Некорректный ИНН: " ++ inn ++ ". ИНН должен содержать 10 или 12 цифр."

/-- check_rkn_registry (lines 272-302): normalize, validate, then dispatch on
the requested method and the available capabilities.  Returns the record
together with which strategy (if any) was invoked; `Invoked.noCall` paths
perform no network activity. -/
def check_rkn_registry (pw : PwWorld) (http : HttpWorld) (inn : String)
    (method : Method) : RKNOperatorInfo × Invoked :=
  let inn := pyNormalizeInn inn
  if !validate_inn inn then
    ({ emptyInfo inn with error := some (invalidInnMsg inn) }, Invoked.noCall)
  else if method == Method.playwright || (method == Method.auto && pw.hasPlaywright) then
    ((check_rkn_registry_playwright pw inn).record, Invoked.pw)
  else if method == Method.requests || (method == Method.auto && http.hasRequests) then
    ((check_rkn_registry_requests http inn).record, Invoked.http)
  else
    ({ emptyInfo inn with
        error := some "Нет доступных методов проверки. Установите playwright или requests." },
      Invoked.noCall)

/-- Python truthiness of the optional `error` field, as tested by
`if result.error:` (lines 331 and 355): set and nonempty. -/
def pyTruthy : Option String → Bool
  | none => false
  | some s => !s.isEmpty

/-- The exit-code mapping at the end of `main` (lines 354-360). -/
def exit_code (r : RKNOperatorInfo) : Nat :=
  if pyTruthy r.error then 2
  else if r.found then 0
  else 1

/-- All eight best-effort extraction fields of the record are unset. -/
def extractedUnset (r : RKNOperatorInfo) : Prop :=
  r.registration_number = none ∧ r.name = none ∧ r.registration_date = none ∧
  r.start_date = none ∧ r.operator_type = none ∧ r.region = none ∧
  r.address = none ∧ r.basis = none

instance (r : RKNOperatorInfo) : Decidable (extractedUnset r) := by
  unfold extractedUnset; infer_instance

theorem pwExtractRow_found (r : RKNOperatorInfo) (t : String) :
    (pwExtractRow r t).found = r.found := by
  obtain ⟨f, i, rn, nm, rd, sd, ot, rg, ad, bs, er, su⟩ := r
  cases h1 : reSearchReg t.data <;>
    cases h2 : findName t <;>
    cases h3 : reSearchDate t.data <;>
    rcases rn with _ | v <;>
    rcases nm with _ | w <;>
    rcases rd with _ | x <;>
    simp [pwExtractRow, h1, h2, h3]

theorem pwExtractRow_inn (r : RKNOperatorInfo) (t : String) :
    (pwExtractRow r t).inn = r.inn := by
  obtain ⟨f, i, rn, nm, rd, sd, ot, rg, ad, bs, er, su⟩ := r
  cases h1 : reSearchReg t.data <;>
    cases h2 : findName t <;>
    cases h3 : reSearchDate t.data <;>
    rcases rn with _ | v <;>
    rcases nm with _ | w <;>
    rcases rd with _ | x <;>
    simp [pwExtractRow, h1, h2, h3]

theorem pwExtractRow_error (r : RKNOperatorInfo) (t : String) :
    (pwExtractRow r t).error = r.error := by
  obtain ⟨f, i, rn, nm, rd, sd, ot, rg, ad, bs, er, su⟩ := r
  cases h1 : reSearchReg t.data <;>
    cases h2 : findName t <;>
    cases h3 : reSearchDate t.data <;>
    rcases rn with _ | v <;>
    rcases nm with _ | w <;>
    rcases rd with _ | x <;>
    simp [pwExtractRow, h1, h2, h3]

theorem pwExtractRow_reg_some (r : RKNOperatorInfo) (t : String) (v : String)
    (h : r.registration_number = some v) :
    (pwExtractRow r t).registration_number = some v := by
  obtain ⟨f, i, rn, nm, rd, sd, ot, rg, ad, bs, er, su⟩ := r
  simp only [] at h
  subst h
  cases h1 : reSearchReg t.data <;>
    cases h2 : findName t <;>
    cases h3 : reSearchDate t.data <;>
    rcases nm with _ | w <;>
    rcases rd with _ | x <;>
    simp [pwExtractRow, h1, h2, h3]

theorem pwExtractRow_name_some (r : RKNOperatorInfo) (t : String) (v : String)
    (h : r.name = some v) :
    (pwExtractRow r t).name = some v := by
  obtain ⟨f, i, rn, nm, rd, sd, ot, rg, ad, bs, er, su⟩ := r
  simp only [] at h
  subst h
  cases h1 : reSearchReg t.data <;>
    cases h2 : findName t <;>
    cases h3 : reSearchDate t.data <;>
    rcases rn with _ | w <;>
    rcases rd with _ | x <;>
    simp [pwExtractRow, h1, h2, h3]

theorem pwExtractRow_date_some (r : RKNOperatorInfo) (t : String) (v : String)
    (h : r.registration_date = some v) :
    (pwExtractRow r t).registration_date = some v := by
  obtain ⟨f, i, rn, nm, rd, sd, ot, rg, ad, bs, er, su⟩ := r
  simp only [] at h
  subst h
  cases h1 : reSearchReg t.data <;>
    cases h2 : findName t <;>
    cases h3 : reSearchDate t.data <;>
    rcases rn with _ | w <;>
    rcases nm with _ | u <;>
    simp [pwExtractRow, h1, h2, h3]

theorem pwLoop_found (r : RKNOperatorInfo) (rows : List (Except String String)) :
    (pwLoop r rows).1.found = r.found := by
  induction rows generalizing r with
  | nil => rfl
  | cons x rest ih =>
    cases x with
    | error msg => rfl
    | ok t => rw [pwLoop, ih, pwExtractRow_found]

theorem pwLoop_inn (r : RKNOperatorInfo) (rows : List (Except String String)) :
    (pwLoop r rows).1.inn = r.inn := by
  induction rows generalizing r with
  | nil => rfl
  | cons x rest ih =>
    cases x with
    | error msg => rfl
    | ok t => rw [pwLoop, ih, pwExtractRow_inn]

theorem pwLoop_error (r : RKNOperatorInfo) (rows : List (Except String String)) :
    (pwLoop r rows).1.error = r.error := by
  induction rows generalizing r with
  | nil => rfl
  | cons x rest ih =>
    cases x with
    | error msg => rfl
    | ok t => rw [pwLoop, ih, pwExtractRow_error]

theorem pwLoop_reg_some (r : RKNOperatorInfo) (rows : List (Except String String))
    (v : String) (h : r.registration_number = some v) :
    (pwLoop r rows).1.registration_number = some v := by
  induction rows generalizing r with
  | nil => exact h
  | cons x rest ih =>
    cases x with
    | error msg => exact h
    | ok t => rw [pwLoop]; exact ih _ (pwExtractRow_reg_some r t v h)

theorem pwLoop_name_some (r : RKNOperatorInfo) (rows : List (Except String String))
    (v : String) (h : r.name = some v) :
    (pwLoop r rows).1.name = some v := by
  induction rows generalizing r with
  | nil => exact h
  | cons x rest ih =>
    cases x with
    | error msg => exact h
    | ok t => rw [pwLoop]; exact ih _ (pwExtractRow_name_some r t v h)

theorem pwLoop_date_some (r : RKNOperatorInfo) (rows : List (Except String String))
    (v : String) (h : r.registration_date = some v) :
    (pwLoop r rows).1.registration_date = some v := by
  induction rows generalizing r with
  | nil => exact h
  | cons x rest ih =>
    cases x with
    | error msg => exact h
    | ok t => rw [pwLoop]; exact ih _ (pwExtractRow_date_some r t v h)

theorem append_ne_empty (p m : String) (h : p ≠ "") : p ++ m ≠ "" := by
  obtain ⟨pd⟩ := p
  obtain ⟨md⟩ := m
  intro hc
  apply h
  have hd : pd ++ md = [] := by
    have := congrArg String.data hc
    simpa [String.append] using this
  rcases List.append_eq_nil.mp hd with ⟨h1, _⟩
  simp [h1]

theorem pyTruthy_some (s : String) (h : s ≠ "") : pyTruthy (some s) = true := by
  cases hE : s.isEmpty with
  | false => simp [pyTruthy, hE]
  | true => exact absurd ((String.isEmpty_iff _).mp hE) h

theorem pyTruthy_append (p m : String) (h : p ≠ "") : pyTruthy (some (p ++ m)) = true :=
  pyTruthy_some (p ++ m) (append_ne_empty p m h)

theorem pwResults_error_truthy (w : PwWorld) (inn : String) :
    pyTruthy (pwResults w inn).record.error = ((pwResults w inn).record.error).isSome := by
  unfold pwResults
  by_cases hC : zeroResultsMarker w.content = true
  · cases hCE : w.closeExn with
    | some msg =>
      simp [hC, hCE, Option.isSome]
      exact pyTruthy_append _ _ (by decide)
    | none => simp [hC, hCE, pyTruthy, pwBase, emptyInfo]
  · by_cases hR : w.rows.isEmpty = true
    · cases hCE : w.closeExn with
      | some msg =>
        simp [hC, hR, hCE, Option.isSome]
        exact pyTruthy_append _ _ (by decide)
      | none => simp [hC, hR, hCE, pyTruthy, pwBase, emptyInfo]
    · cases hL : (pwLoop (pwFoundRecord inn w.pageUrl) w.rows).2 with
      | some msg =>
        simp [hC, hR, hL, Option.isSome]
        exact pyTruthy_append _ _ (by decide)
      | none =>
        cases hCE : w.closeExn with
        | some msg =>
          simp [hC, hR, hL, hCE, Option.isSome]
          exact pyTruthy_append _ _ (by decide)
        | none =>
          simp only [hC, hR, hL, hCE, Bool.not_eq_true, if_false, Bool.false_eq_true]
          simp [hL, hCE, pwLoop_error, pyTruthy, pwFoundRecord, pwBase, emptyInfo]

theorem httpParseTable_error (inn : String) (tables : List (List (List String))) :
    (httpParseTable inn tables).error = none := by
  unfold httpParseTable
  cases hT : tables.head? with
  | none => rfl
  | some t =>
    dsimp only
    by_cases h1 : 1 < t.length
    · rw [if_pos h1]
      by_cases h2 : 2 ≤ (t.getD 1 []).length
      · rw [if_pos h2]; rfl
      · rw [if_neg h2]; rfl
    · rw [if_neg h1]; rfl

theorem httpParseTable_inn (inn : String) (tables : List (List (List String))) :
    (httpParseTable inn tables).inn = inn := by
  unfold httpParseTable
  cases hT : tables.head? with
  | none => rfl
  | some t =>
    dsimp only
    by_cases h1 : 1 < t.length
    · rw [if_pos h1]
      by_cases h2 : 2 ≤ (t.getD 1 []).length
      · rw [if_pos h2]; rfl
      · rw [if_neg h2]; rfl
    · rw [if_neg h1]; rfl

theorem pw_error_truthy (w : PwWorld) (inn : String) :
    pyTruthy (check_rkn_registry_playwright w inn).record.error =
      ((check_rkn_registry_playwright w inn).record.error).isSome := by
  unfold check_rkn_registry_playwright
  cases hP : w.hasPlaywright with
  | false => simp [hP, pyTruthy, emptyInfo]; decide
  | true =>
    cases hLE : w.launchExn with
    | some msg =>
      simp [hP, hLE, Option.isSome]
      exact pyTruthy_append _ _ (by decide)
    | none =>
      cases hG : w.gotoOutcome with
      | some e =>
        cases e with
        | timeout => simp [hP, hLE, hG, pyTruthy, emptyInfo]; decide
        | other msg =>
          simp [hP, hLE, hG, Option.isSome]
          exact pyTruthy_append _ _ (by decide)
      | none =>
        cases hF : w.innFieldFound with
        | false =>
          cases hCE : w.closeExn with
          | some msg =>
            simp [hP, hLE, hG, hF, hCE, Option.isSome]
            exact pyTruthy_append _ _ (by decide)
          | none => simp [hP, hLE, hG, hF, hCE, pyTruthy, emptyInfo]; decide
        | true =>
          cases hW : w.waitOutcome with
          | some e =>
            cases e with
            | timeout => simp [hP, hLE, hG, hF, hW, pyTruthy, emptyInfo]; decide
            | other msg =>
              simp [hP, hLE, hG, hF, hW, Option.isSome]
              exact pyTruthy_append _ _ (by decide)
          | none =>
            simp only [hP, hLE, hG, hF, hW, Bool.not_true, Bool.false_eq_true, if_false]
            exact pwResults_error_truthy w inn

theorem http_error_truthy (w : HttpWorld) (inn : String) :
    pyTruthy (check_rkn_registry_requests w inn).record.error =
      ((check_rkn_registry_requests w inn).record.error).isSome := by
  unfold check_rkn_registry_requests
  cases hH : w.hasRequests with
  | false => simp [hH, pyTruthy, emptyInfo]; decide
  | true =>
    cases hG : w.getOutcome with
    | error e =>
      cases e with
      | request msg =>
        simp [hH, hG, Option.isSome, httpExnMsg]
        exact pyTruthy_append _ _ (by decide)
      | other msg =>
        simp [hH, hG, Option.isSome, httpExnMsg]
        exact pyTruthy_append _ _ (by decide)
    | ok sb =>
      obtain ⟨status, body⟩ := sb
      cases hS : status == 200 with
      | false =>
        simp [hH, hG, hS, Option.isSome]
        exact pyTruthy_append _ _ (by decide)
      | true =>
        by_cases hB : botDefenseMarker body = true
        · simp [hH, hG, hS, hB, pyTruthy, emptyInfo]; decide
        · cases hPo : w.postOutcome with
          | error e =>
            cases e with
            | request msg =>
              simp [hH, hG, hS, hB, hPo, Option.isSome, httpExnMsg]
              exact pyTruthy_append _ _ (by decide)
            | other msg =>
              simp [hH, hG, hS, hB, hPo, Option.isSome, httpExnMsg]
              exact pyTruthy_append _ _ (by decide)
          | ok resp =>
            by_cases hZ : containsSub resp.text "Найдено: 0" = true
            · simp [hH, hG, hS, hB, hPo, hZ, pyTruthy, emptyInfo]
            · simp [hH, hG, hS, hB, hPo, hZ, pyTruthy, httpParseTable_error]

theorem pwResults_inn (w : PwWorld) (inn : String) :
    (pwResults w inn).record.inn = inn := by
  unfold pwResults
  by_cases hC : zeroResultsMarker w.content = true
  · cases hCE : w.closeExn with
    | some msg => simp [hC, hCE, pwBase, emptyInfo]
    | none => simp [hC, hCE, pwBase, emptyInfo]
  · by_cases hR : w.rows.isEmpty = true
    · cases hCE : w.closeExn with
      | some msg => simp [hC, hR, hCE, pwBase, emptyInfo]
      | none => simp [hC, hR, hCE, pwBase, emptyInfo]
    · cases hL : (pwLoop (pwFoundRecord inn w.pageUrl) w.rows).2 with
      | some msg =>
        simp only [hC, hR, hL, Bool.not_eq_true, if_false, Bool.false_eq_true]
        simp [hL, pwLoop_inn, pwFoundRecord, pwBase, emptyInfo]
      | none =>
        cases hCE : w.closeExn with
        | some msg =>
          simp only [hC, hR, hL, hCE, Bool.not_eq_true, if_false, Bool.false_eq_true]
          simp [hL, hCE, pwLoop_inn, pwFoundRecord, pwBase, emptyInfo]
        | none =>
          simp only [hC, hR, hL, hCE, Bool.not_eq_true, if_false, Bool.false_eq_true]
          simp [hL, hCE, pwLoop_inn, pwFoundRecord, pwBase, emptyInfo]

theorem pw_inn (w : PwWorld) (inn : String) :
    (check_rkn_registry_playwright w inn).record.inn = inn := by
  unfold check_rkn_registry_playwright
  cases hP : w.hasPlaywright with
  | false => simp [hP, emptyInfo]
  | true =>
    cases hLE : w.launchExn with
    | some msg => simp [hP, hLE, emptyInfo]
    | none =>
      cases hG : w.gotoOutcome with
      | some e => cases e <;> simp [hP, hLE, hG, emptyInfo]
      | none =>
        cases hF : w.innFieldFound with
        | false =>
          cases hCE : w.closeExn with
          | some msg => simp [hP, hLE, hG, hF, hCE, emptyInfo]
          | none => simp [hP, hLE, hG, hF, hCE, emptyInfo]
        | true =>
          cases hW : w.waitOutcome with
          | some e => cases e <;> simp [hP, hLE, hG, hF, hW, emptyInfo]
          | none =>
            simp only [hP, hLE, hG, hF, hW, Bool.not_true, Bool.false_eq_true, if_false]
            exact pwResults_inn w inn

theorem http_inn (w : HttpWorld) (inn : String) :
    (check_rkn_registry_requests w inn).record.inn = inn := by
  unfold check_rkn_registry_requests
  cases hH : w.hasRequests with
  | false => simp [hH, emptyInfo]
  | true =>
    cases hG : w.getOutcome with
    | error e => cases e <;> simp [hH, hG, emptyInfo]
    | ok sb =>
      obtain ⟨status, body⟩ := sb
      cases hS : status == 200 with
      | false => simp [hH, hG, hS, emptyInfo]
      | true =>
        by_cases hB : botDefenseMarker body = true
        · simp [hH, hG, hS, hB, emptyInfo]
        · cases hPo : w.postOutcome with
          | error e => cases e <;> simp [hH, hG, hS, hB, hPo, emptyInfo]
          | ok resp =>
            by_cases hZ : containsSub resp.text "Найдено: 0" = true
            · simp [hH, hG, hS, hB, hPo, hZ, emptyInfo]
            · simp [hH, hG, hS, hB, hPo, hZ, httpParseTable_inn]

theorem sel_error_truthy (pw : PwWorld) (http : HttpWorld) (inn : String) (m : Method) :
    pyTruthy (check_rkn_registry pw http inn m).1.error =
      ((check_rkn_registry pw http inn m).1.error).isSome := by
  unfold check_rkn_registry
  by_cases hV : validate_inn (pyNormalizeInn inn) = true
  · by_cases hM1 : (m == Method.playwright || (m == Method.auto && pw.hasPlaywright)) = true
    · simp only [hV, hM1, Bool.not_true, Bool.false_eq_true, if_false, if_true]
      exact pw_error_truthy pw (pyNormalizeInn inn)
    · by_cases hM2 : (m == Method.requests || (m == Method.auto && http.hasRequests)) = true
      · simp only [hV, hM1, hM2, Bool.not_true, Bool.false_eq_true, if_false, if_true]
        exact http_error_truthy http (pyNormalizeInn inn)
      · simp only [hV, hM1, hM2, Bool.not_true, Bool.false_eq_true, if_false, if_true]
        simp [pyTruthy, emptyInfo]
        decide
  · simp only [hV, Bool.not_eq_true, if_true, if_false]
    simp [hV, Option.isSome, emptyInfo]
    exact pyTruthy_some (invalidInnMsg (pyNormalizeInn inn))
      (append_ne_empty _ _ (append_ne_empty "Некорректный ИНН: " (pyNormalizeInn inn) (by decide)))

theorem sel_inn (pw : PwWorld) (http : HttpWorld) (inn : String) (m : Method) :
    (check_rkn_registry pw http inn m).1.inn = pyNormalizeInn inn := by
  unfold check_rkn_registry
  by_cases hV : validate_inn (pyNormalizeInn inn) = true
  · by_cases hM1 : (m == Method.playwright || (m == Method.auto && pw.hasPlaywright)) = true
    · simp only [hV, hM1, Bool.not_true, Bool.false_eq_true, if_false, if_true]
      exact pw_inn pw (pyNormalizeInn inn)
    · by_cases hM2 : (m == Method.requests || (m == Method.auto && http.hasRequests)) = true
      · simp only [hV, hM1, hM2, Bool.not_true, Bool.false_eq_true, if_false, if_true]
        exact http_inn http (pyNormalizeInn inn)
      · simp only [hV, hM1, hM2, Bool.not_true, Bool.false_eq_true, if_false, if_true]
        simp [emptyInfo]
  · simp [hV, emptyInfo]

/-- C1: for every invocation, the process exit status is exactly determined by
the returned record: 2 when the error field is set, 0 when error is unset and
found is true, and 1 when error is unset and found is false. -/
theorem exitCode_determined_by_record (pw : PwWorld) (http : HttpWorld) (inn : String)
    (m : Method) :
    (exit_code (check_rkn_registry pw http inn m).1 = 2 ↔
       ((check_rkn_registry pw http inn m).1.error).isSome = true) ∧
    (exit_code (check_rkn_registry pw http inn m).1 = 0 ↔
       ((check_rkn_registry pw http inn m).1.error = none ∧
        (check_rkn_registry pw http inn m).1.found = true)) ∧
    (exit_code (check_rkn_registry pw http inn m).1 = 1 ↔
       ((check_rkn_registry pw http inn m).1.error = none ∧
        (check_rkn_registry pw http inn m).1.found = false)) := by
  have ht := sel_error_truthy pw http inn m
  unfold exit_code
  rw [ht]
  rcases hE : (check_rkn_registry pw http inn m).1.error with _ | e <;>
    rcases hF : (check_rkn_registry pw http inn m).1.found <;>
    simp [hE, hF]

/-- Stated from the words of the spec (section 4.1): accept exactly when,
after stripping surrounding whitespace, every remaining character is a
decimal digit and the length is exactly 10 or 12. -/
def validate_inn_spec (s : String) : Prop :=
  (∀ c ∈ (pyStrip s).toList, c.isDigit = true) ∧
  ((pyStrip s).length = 10 ∨ (pyStrip s).length = 12)

/-- C3: the validator accepts a raw string iff after stripping whitespace all
characters are decimal digits and the length is 10 or 12; it is a pure
boolean function. -/
theorem validate_inn_iff_spec (s : String) : validate_inn s = true ↔ validate_inn_spec s := by
  have hb : validate_inn s =
      (pyIsdigit (pyStrip s) && ((pyStrip s).length == 10 || (pyStrip s).length == 12)) := by
    unfold validate_inn
    cases hd : pyIsdigit (pyStrip s) <;>
      cases hl : ((pyStrip s).length == 10 || (pyStrip s).length == 12) <;>
      simp [hd, hl]
  rw [hb]
  unfold validate_inn_spec pyIsdigit
  simp only [Bool.and_eq_true, Bool.or_eq_true, beq_iff_eq, Bool.not_eq_true',
    List.all_eq_true]
  constructor
  · rintro ⟨⟨hne, hall⟩, hlen⟩
    exact ⟨hall, hlen⟩
  · rintro ⟨hall, hlen⟩
    refine ⟨⟨?_, hall⟩, hlen⟩
    have hpos : 0 < (pyStrip s).toList.length := by
      have hlist : (pyStrip s).toList.length = (pyStrip s).length := rfl
      omega
    rcases hnil : (pyStrip s).toList with _ | ⟨c, cs⟩
    · rw [hnil] at hpos
      simp at hpos
    · rfl

/-- A concrete benign Playwright world, used by witnesses. -/
def pwW0 : PwWorld :=
  { hasPlaywright := true
    launchExn := none
    gotoOutcome := none
    innFieldFound := true
    searchBtnFound := true
    waitOutcome := none
    content := "Найдено: 0"
    pageUrl := "https://pd.rkn.gov.ru/operators-registry/operators-list/"
    rows := []
    closeExn := none }

/-- A concrete benign HTTP world, used by witnesses. -/
def httpW0 : HttpWorld :=
  { hasRequests := true
    getOutcome := Except.ok (200, "registry page")
    postOutcome := Except.ok { text := "Найдено: 0", tables := [], url := "http://final" } }

/-- C4: an identifier that fails validation short-circuits: the selector
returns an error record with found unset, invokes no acquisition strategy
(hence no network activity), and the process exits with code 2. -/
theorem invalid_input_short_circuits (pw : PwWorld) (http : HttpWorld) (inn : String)
    (m : Method) (h : validate_inn (pyNormalizeInn inn) = false) :
    (check_rkn_registry pw http inn m).2 = Invoked.noCall ∧
    ((check_rkn_registry pw http inn m).1.error).isSome = true ∧
    (check_rkn_registry pw http inn m).1.found = false ∧
    exit_code (check_rkn_registry pw http inn m).1 = 2 := by
  have hrec : check_rkn_registry pw http inn m =
      ({ emptyInfo (pyNormalizeInn inn) with
          error := some (invalidInnMsg (pyNormalizeInn inn)) }, Invoked.noCall) := by
    unfold check_rkn_registry
    simp [h]
  rw [hrec]
  have ht : pyTruthy (some (invalidInnMsg (pyNormalizeInn inn))) = true :=
    pyTruthy_some (invalidInnMsg (pyNormalizeInn inn))
      (append_ne_empty _ _ (append_ne_empty "Некорректный ИНН: " (pyNormalizeInn inn) (by decide)))
  refine ⟨rfl, rfl, rfl, ?_⟩
  unfold exit_code
  dsimp only
  rw [ht]
  simp

/-- Witness for C4: invoking with the five-digit identifier 12345 yields no
strategy call, an error record, and exit code 2. -/
theorem invalid_input_short_circuits_witness :
    (check_rkn_registry pwW0 httpW0 "12345" Method.auto).2 = Invoked.noCall ∧
    ((check_rkn_registry pwW0 httpW0 "12345" Method.auto).1.error).isSome = true ∧
    (check_rkn_registry pwW0 httpW0 "12345" Method.auto).1.found = false ∧
    exit_code (check_rkn_registry pwW0 httpW0 "12345" Method.auto).1 = 2 :=
  invalid_input_short_circuits pwW0 httpW0 "12345" Method.auto (by decide)

/-- C6: when the initial GET returns status 200 and its body carries a
bot-defense marker (the security-check text, or case-insensitively
"captcha"), the HTTP strategy returns an error advising the browser strategy,
never sends the search POST, and extracts nothing. -/
theorem bot_defense_blocks (w : HttpWorld) (inn body : String)
    (hH : w.hasRequests = true)
    (hG : w.getOutcome = Except.ok (200, body))
    (hB : botDefenseMarker body = true) :
    (check_rkn_registry_requests w inn).postSent = false ∧
    (check_rkn_registry_requests w inn).record.error =
      some "Сайт требует прохождение проверки безопасности. Используйте Playwright." ∧
    (check_rkn_registry_requests w inn).record.found = false ∧
    extractedUnset (check_rkn_registry_requests w inn).record := by
  have hrec : check_rkn_registry_requests w inn =
      { record := { emptyInfo inn with
          error := some "Сайт требует прохождение проверки безопасности. Используйте Playwright." },
        postSent := false } := by
    unfold check_rkn_registry_requests
    simp [hH, hG, hB]
  rw [hrec]
  exact ⟨rfl, rfl, rfl, rfl, rfl, rfl, rfl, rfl, rfl, rfl, rfl⟩

/-- Witness for C6 at a concrete GET body containing "captcha". -/
theorem bot_defense_blocks_witness :
    (check_rkn_registry_requests
      { hasRequests := true
        getOutcome := Except.ok (200, "please solve this CAPTCHA to continue")
        postOutcome := Except.ok { text := "", tables := [], url := "" } }
      "7707083893").postSent = false ∧
    (check_rkn_registry_requests
      { hasRequests := true
        getOutcome := Except.ok (200, "please solve this CAPTCHA to continue")
        postOutcome := Except.ok { text := "", tables := [], url := "" } }
      "7707083893").record.error =
      some "Сайт требует прохождение проверки безопасности. Используйте Playwright." ∧
    (check_rkn_registry_requests
      { hasRequests := true
        getOutcome := Except.ok (200, "please solve this CAPTCHA to continue")
        postOutcome := Except.ok { text := "", tables := [], url := "" } }
      "7707083893").record.found = false ∧
    extractedUnset (check_rkn_registry_requests
      { hasRequests := true
        getOutcome := Except.ok (200, "please solve this CAPTCHA to continue")
        postOutcome := Except.ok { text := "", tables := [], url := "" } }
      "7707083893").record :=
  bot_defense_blocks _ "7707083893" "please solve this CAPTCHA to continue"
    rfl rfl (by decide)

/-- C7: when the parsed POST response has a first table with more than one
row, the HTTP strategy sets found; a second row with at least two cells has
its first two cell texts extracted verbatim as registration number and name,
and a second row with fewer than two cells leaves the name unset. -/
theorem http_table_extraction (w : HttpWorld) (inn body : String) (resp : PostResp)
    (t : List (List String))
    (hH : w.hasRequests = true)
    (hG : w.getOutcome = Except.ok (200, body))
    (hB : botDefenseMarker body = false)
    (hPo : w.postOutcome = Except.ok resp)
    (hZ : containsSub resp.text "Найдено: 0" = false)
    (hT : resp.tables.head? = some t)
    (hLen : 1 < t.length) :
    (check_rkn_registry_requests w inn).record.found = true ∧
    (2 ≤ (t.getD 1 []).length →
      (check_rkn_registry_requests w inn).record.registration_number = (t.getD 1 [])[0]? ∧
      (check_rkn_registry_requests w inn).record.name = (t.getD 1 [])[1]?) ∧
    ((t.getD 1 []).length < 2 →
      (check_rkn_registry_requests w inn).record.name = none) := by
  have hrec : check_rkn_registry_requests w inn =
      { record := { httpParseTable inn resp.tables with source_url := some resp.url },
        postSent := true } := by
    unfold check_rkn_registry_requests
    simp [hH, hG, hB, hPo, hZ]
  rw [hrec]
  dsimp only
  unfold httpParseTable
  rw [hT]
  dsimp only
  rw [if_pos hLen]
  by_cases hC : 2 ≤ (t.getD 1 []).length
  · rw [if_pos hC]
    exact ⟨rfl, fun _ => ⟨rfl, rfl⟩, fun hlt => absurd hC (by omega)⟩
  · rw [if_neg hC]
    exact ⟨rfl, fun hge => absurd hge hC, fun _ => rfl⟩

/-- The POST response used by the C7 witness: a first table whose second row
has two populated cells. -/
def respW7 : PostResp :=
  { text := "результаты поиска"
    tables := [[["№", "Наименование"], ["11-22-33", "ООО Ромашка"]]]
    url := "http://final" }

/-- The first table of `respW7`. -/
def tableW7 : List (List String) :=
  [["№", "Наименование"], ["11-22-33", "ООО Ромашка"]]

/-- The HTTP world used by the C7 witness. -/
def httpW7 : HttpWorld :=
  { hasRequests := true
    getOutcome := Except.ok (200, "welcome page")
    postOutcome := Except.ok respW7 }

/-- Witness for C7: a simulated result table with two populated data cells is
extracted verbatim into registration number and name. -/
theorem http_table_extraction_witness :
    (check_rkn_registry_requests httpW7 "7707083893").record.found = true ∧
    (2 ≤ (tableW7.getD 1 []).length →
      (check_rkn_registry_requests httpW7 "7707083893").record.registration_number =
        (tableW7.getD 1 [])[0]? ∧
      (check_rkn_registry_requests httpW7 "7707083893").record.name =
        (tableW7.getD 1 [])[1]?) ∧
    ((tableW7.getD 1 []).length < 2 →
      (check_rkn_registry_requests httpW7 "7707083893").record.name = none) :=
  http_table_extraction httpW7 "7707083893" "welcome page" respW7 tableW7
    rfl rfl (by decide) rfl (by decide) rfl (by decide)

/-- Counterexample to C5 as stated: the lower-cased not-found phrase
"не найдено" occurs (as a case-insensitive substring) in the POST response
body, yet the HTTP strategy proceeds to table parsing, returns found = true
and extracts fields, because the code only tests the case-sensitive marker
"Найдено: 0" in that strategy. -/
theorem zero_results_counterexample :
    containsSub (pyLower "По вашему запросу ничего не найдено") "не найдено" = true ∧
    (check_rkn_registry_requests
      { hasRequests := true
        getOutcome := Except.ok (200, "welcome")
        postOutcome := Except.ok
          { text := "По вашему запросу ничего не найдено"
            tables := [[["№", "Имя"], ["11-22-33", "ООО Ромашка"]]]
            url := "http://x" } }
      "7707083893").record.found = true ∧
    (check_rkn_registry_requests
      { hasRequests := true
        getOutcome := Except.ok (200, "welcome")
        postOutcome := Except.ok
          { text := "По вашему запросу ничего не найдено"
            tables := [[["№", "Имя"], ["11-22-33", "ООО Ромашка"]]]
            url := "http://x" } }
      "7707083893").record.name = some "ООО Ромашка" := by
  refine ⟨by decide, ?_, ?_⟩ <;> decide

/-- Amended C5: when the settled page text contains "Найдено: 0"
case-sensitively or, case-insensitively, "не найдено" or "нет данных", the
browser strategy attempts no extraction and returns found=false; its error is
unset when the browser close at line 154 succeeds, and set to the Playwright
error when that close raises.  The HTTP strategy returns found=false with
error unset only for the case-sensitive marker "Найдено: 0" in the POST
response body. -/
theorem zero_results_markers_amended :
    (∀ (w : PwWorld) (inn : String),
      w.hasPlaywright = true → w.launchExn = none → w.gotoOutcome = none →
      w.innFieldFound = true → w.waitOutcome = none →
      zeroResultsMarker w.content = true →
      (check_rkn_registry_playwright w inn).record.found = false ∧
      extractedUnset (check_rkn_registry_playwright w inn).record ∧
      (w.closeExn = none → (check_rkn_registry_playwright w inn).record.error = none) ∧
      (∀ msg, w.closeExn = some msg →
        (check_rkn_registry_playwright w inn).record.error =
          some ("Ошибка Playwright: " ++ msg))) ∧
    (∀ (w : HttpWorld) (inn body : String) (resp : PostResp),
      w.hasRequests = true → w.getOutcome = Except.ok (200, body) →
      botDefenseMarker body = false → w.postOutcome = Except.ok resp →
      containsSub resp.text "Найдено: 0" = true →
      (check_rkn_registry_requests w inn).record.found = false ∧
      (check_rkn_registry_requests w inn).record.error = none ∧
      extractedUnset (check_rkn_registry_requests w inn).record) := by
  constructor
  · intro w inn hP hLE hG hF hW hZ
    have hrec : check_rkn_registry_playwright w inn = pwResults w inn := by
      unfold check_rkn_registry_playwright
      simp [hP, hLE, hG, hF, hW]
    rw [hrec]
    unfold pwResults
    rw [if_pos hZ]
    cases hCE : w.closeExn with
    | some msg =>
      refine ⟨rfl, ⟨rfl, rfl, rfl, rfl, rfl, rfl, rfl, rfl⟩, ?_, ?_⟩
      · intro h
        simp at h
      · intro m hm
        injection hm with he
        rw [he]
    | none =>
      refine ⟨rfl, ⟨rfl, rfl, rfl, rfl, rfl, rfl, rfl, rfl⟩, fun _ => rfl, ?_⟩
      intro m hm
      simp at hm
  · intro w inn body resp hH hG hB hPo hZ
    have hrec : check_rkn_registry_requests w inn =
        { record := emptyInfo inn, postSent := true } := by
      unfold check_rkn_registry_requests
      simp [hH, hG, hB, hPo, hZ]
    rw [hrec]
    exact ⟨rfl, rfl, rfl, rfl, rfl, rfl, rfl, rfl, rfl, rfl⟩

/-- Witness for the amended C5 at concrete zero-results pages in both
strategies (the browser world closes successfully, so its error is unset). -/
theorem zero_results_markers_amended_witness :
    ((check_rkn_registry_playwright pwW0 "7707083893").record.found = false ∧
     extractedUnset (check_rkn_registry_playwright pwW0 "7707083893").record ∧
     (pwW0.closeExn = none →
       (check_rkn_registry_playwright pwW0 "7707083893").record.error = none) ∧
     (∀ msg, pwW0.closeExn = some msg →
       (check_rkn_registry_playwright pwW0 "7707083893").record.error =
         some ("Ошибка Playwright: " ++ msg))) ∧
    ((check_rkn_registry_requests httpW0 "7707083893").record.found = false ∧
     (check_rkn_registry_requests httpW0 "7707083893").record.error = none ∧
     extractedUnset (check_rkn_registry_requests httpW0 "7707083893").record) :=
  ⟨zero_results_markers_amended.1 pwW0 "7707083893" rfl rfl rfl rfl rfl (by decide),
   zero_results_markers_amended.2 httpW0 "7707083893" "registry page" _ rfl rfl
     (by decide) rfl (by decide)⟩

theorem http_error_unset_invariant (w : HttpWorld) (inn : String) :
    (check_rkn_registry_requests w inn).record.error = none ∨
    ((check_rkn_registry_requests w inn).record.found = false ∧
     extractedUnset (check_rkn_registry_requests w inn).record) := by
  obtain ⟨hR, gO, pO⟩ := w
  unfold check_rkn_registry_requests
  cases hR with
  | false => exact Or.inr ⟨rfl, rfl, rfl, rfl, rfl, rfl, rfl, rfl, rfl⟩
  | true =>
    cases gO with
    | error e => exact Or.inr ⟨rfl, rfl, rfl, rfl, rfl, rfl, rfl, rfl, rfl⟩
    | ok sb =>
      obtain ⟨status, body⟩ := sb
      dsimp only
      cases hS : status == 200 with
      | false => exact Or.inr ⟨rfl, rfl, rfl, rfl, rfl, rfl, rfl, rfl, rfl⟩
      | true =>
        cases hB : botDefenseMarker body with
        | true => exact Or.inr ⟨rfl, rfl, rfl, rfl, rfl, rfl, rfl, rfl, rfl⟩
        | false =>
          cases pO with
          | error e => exact Or.inr ⟨rfl, rfl, rfl, rfl, rfl, rfl, rfl, rfl, rfl⟩
          | ok resp =>
            dsimp only
            cases hZ : containsSub resp.text "Найдено: 0" with
            | true => exact Or.inl rfl
            | false => exact Or.inl (httpParseTable_error inn resp.tables)

theorem pwResults_invariant (w : PwWorld) (inn : String) :
    (pwResults w inn).record.found = true ∨
    (pwResults w inn).record.error = none ∨
    extractedUnset (pwResults w inn).record := by
  unfold pwResults
  by_cases hC : zeroResultsMarker w.content = true
  · cases hCE : w.closeExn with
    | some msg =>
      right
      right
      simp [hC, hCE, extractedUnset, pwBase, emptyInfo]
    | none =>
      right
      left
      simp [hC, hCE, pwBase, emptyInfo]
  · by_cases hR : w.rows.isEmpty = true
    · cases hCE : w.closeExn with
      | some msg =>
        right
        right
        simp [hC, hR, hCE, extractedUnset, pwBase, emptyInfo]
      | none =>
        right
        left
        simp [hC, hR, hCE, pwBase, emptyInfo]
    · cases hL : (pwLoop (pwFoundRecord inn w.pageUrl) w.rows).2 with
      | some msg =>
        left
        simp only [hC, hR, hL, Bool.not_eq_true, if_false, Bool.false_eq_true]
        simp [hL, pwLoop_found, pwFoundRecord, pwBase, emptyInfo]
      | none =>
        cases hCE : w.closeExn with
        | some msg =>
          left
          simp only [hC, hR, hL, hCE, Bool.not_eq_true, if_false, Bool.false_eq_true]
          simp [hL, hCE, pwLoop_found, pwFoundRecord, pwBase, emptyInfo]
        | none =>
          right
          left
          simp only [hC, hR, hL, hCE, Bool.not_eq_true, if_false, Bool.false_eq_true]
          simp [hL, hCE, pwLoop_error, pwFoundRecord, pwBase, emptyInfo]

theorem pw_error_found_invariant (w : PwWorld) (inn : String) :
    (check_rkn_registry_playwright w inn).record.found = true ∨
    (check_rkn_registry_playwright w inn).record.error = none ∨
    extractedUnset (check_rkn_registry_playwright w inn).record := by
  unfold check_rkn_registry_playwright
  cases hP : w.hasPlaywright with
  | false =>
    refine Or.inr (Or.inr ?_)
    simp [hP, extractedUnset, emptyInfo]
  | true =>
    cases hLE : w.launchExn with
    | some msg =>
      refine Or.inr (Or.inr ?_)
      simp [hP, hLE, extractedUnset, emptyInfo]
    | none =>
      cases hG : w.gotoOutcome with
      | some e =>
        refine Or.inr (Or.inr ?_)
        cases e <;> simp [hP, hLE, hG, extractedUnset, emptyInfo]
      | none =>
        cases hF : w.innFieldFound with
        | false =>
          refine Or.inr (Or.inr ?_)
          cases hCE : w.closeExn with
          | some msg => simp [hP, hLE, hG, hF, hCE, extractedUnset, emptyInfo]
          | none => simp [hP, hLE, hG, hF, hCE, extractedUnset, emptyInfo]
        | true =>
          cases hW : w.waitOutcome with
          | some e =>
            refine Or.inr (Or.inr ?_)
            cases e <;> simp [hP, hLE, hG, hF, hW, extractedUnset, emptyInfo]
          | none =>
            simp only [hP, hLE, hG, hF, hW, Bool.not_true, Bool.false_eq_true, if_false]
            exact pwResults_invariant w inn

theorem sel_noCall_error_invariant (pw : PwWorld) (http : HttpWorld) (inn : String) (m : Method)
    (nc : (check_rkn_registry pw http inn m).2 = Invoked.noCall) :
    (check_rkn_registry pw http inn m).1.found = false ∧
    extractedUnset (check_rkn_registry pw http inn m).1 := by
  by_cases hV : validate_inn (pyNormalizeInn inn) = true
  · by_cases hM1 : (m == Method.playwright || (m == Method.auto && pw.hasPlaywright)) = true
    · exfalso
      have h2 : (check_rkn_registry pw http inn m).2 = Invoked.pw := by
        unfold check_rkn_registry
        simp [hV, hM1]
      rw [h2] at nc
      simp at nc
    · by_cases hM2 : (m == Method.requests || (m == Method.auto && http.hasRequests)) = true
      · exfalso
        have h2 : (check_rkn_registry pw http inn m).2 = Invoked.http := by
          unfold check_rkn_registry
          simp [hV, hM1, hM2]
        rw [h2] at nc
        simp at nc
      · have hrec : check_rkn_registry pw http inn m =
            ({ emptyInfo (pyNormalizeInn inn) with
                error := some "Нет доступных методов проверки. Установите playwright или requests." },
              Invoked.noCall) := by
          unfold check_rkn_registry
          simp [hV, hM1, hM2]
        rw [hrec]
        exact ⟨rfl, rfl, rfl, rfl, rfl, rfl, rfl, rfl, rfl⟩
  · have hVf : validate_inn (pyNormalizeInn inn) = false := by simpa using hV
    have hrec : check_rkn_registry pw http inn m =
        ({ emptyInfo (pyNormalizeInn inn) with
            error := some (invalidInnMsg (pyNormalizeInn inn)) }, Invoked.noCall) := by
      unfold check_rkn_registry
      simp [hVf]
    rw [hrec]
    exact ⟨rfl, rfl, rfl, rfl, rfl, rfl, rfl, rfl, rfl⟩

/-- The world of the C2 counterexample: one good result row, then a row whose
inner_text call raises, then the exception handler stores the error while
found and the extracted registration number keep their values. -/
def pwC2 : PwWorld :=
  { hasPlaywright := true
    launchExn := none
    gotoOutcome := none
    innFieldFound := true
    searchBtnFound := true
    waitOutcome := none
    content := "Результаты поиска"
    pageUrl := "u"
    rows := [Except.ok "запись 77-123-456", Except.error "browser crashed"]
    closeExn := none }

/-- Counterexample to C2 as stated: an exception raised during row extraction
in the browser strategy is caught and stored in error, but the record keeps
found = true and the already-extracted registration number. -/
theorem error_unsets_fields_counterexample :
    ((check_rkn_registry_playwright pwC2 "7707083893").record.error).isSome = true ∧
    (check_rkn_registry_playwright pwC2 "7707083893").record.found = true ∧
    (check_rkn_registry_playwright pwC2 "7707083893").record.registration_number =
      some "77-123-456" := by
  refine ⟨?_, ?_, ?_⟩ <;> decide

/-- Amended C2: the HTTP strategy and the selector's own records keep the full
invariant (error set implies found unset and no extracted fields); in the
browser strategy the invariant holds whenever found is false, but an error
raised after result rows were detected can coexist with found = true and
already-extracted fields. -/
theorem error_unsets_fields_amended :
    (∀ (w : HttpWorld) (inn : String),
      ((check_rkn_registry_requests w inn).record.error).isSome = true →
      (check_rkn_registry_requests w inn).record.found = false ∧
      extractedUnset (check_rkn_registry_requests w inn).record) ∧
    (∀ (pw : PwWorld) (http : HttpWorld) (inn : String) (m : Method),
      (check_rkn_registry pw http inn m).2 = Invoked.noCall →
      (check_rkn_registry pw http inn m).1.found = false ∧
      extractedUnset (check_rkn_registry pw http inn m).1) ∧
    (∀ (w : PwWorld) (inn : String),
      ((check_rkn_registry_playwright w inn).record.error).isSome = true →
      (check_rkn_registry_playwright w inn).record.found = false →
      extractedUnset (check_rkn_registry_playwright w inn).record) := by
  refine ⟨?_, ?_, ?_⟩
  · intro w inn hE
    rcases http_error_unset_invariant w inn with h | h
    · rw [h] at hE
      simp at hE
    · exact h
  · intro pw http inn m nc
    exact sel_noCall_error_invariant pw http inn m nc
  · intro w inn hE hF
    rcases pw_error_found_invariant w inn with h | h | h
    · rw [h] at hF
      simp at hF
    · rw [h] at hE
      simp at hE
    · exact h

/-- The HTTP world with the requests library missing, for the C2 witness. -/
def httpNoReq : HttpWorld :=
  { hasRequests := false
    getOutcome := Except.ok (200, "")
    postOutcome := Except.ok { text := "", tables := [], url := "" } }

/-- A browser world whose page load times out, for the C2 witness. -/
def pwTimeoutW : PwWorld :=
  { hasPlaywright := true
    launchExn := none
    gotoOutcome := some PwExn.timeout
    innFieldFound := true
    searchBtnFound := true
    waitOutcome := none
    content := ""
    pageUrl := ""
    rows := []
    closeExn := none }

/-- Witness for the amended C2 at concrete error-producing worlds. -/
theorem error_unsets_fields_amended_witness :
    ((check_rkn_registry_requests httpNoReq "7707083893").record.found = false ∧
      extractedUnset (check_rkn_registry_requests httpNoReq "7707083893").record) ∧
    ((check_rkn_registry pwW0 httpW0 "12345" Method.auto).1.found = false ∧
      extractedUnset (check_rkn_registry pwW0 httpW0 "12345" Method.auto).1) ∧
    extractedUnset (check_rkn_registry_playwright pwTimeoutW "7707083893").record :=
  ⟨error_unsets_fields_amended.1 httpNoReq "7707083893" (by decide),
   error_unsets_fields_amended.2.1 pwW0 httpW0 "12345" Method.auto (by decide),
   error_unsets_fields_amended.2.2 pwTimeoutW "7707083893" (by decide) (by decide)⟩

/-- C8: in the browser strategy's per-row extraction loop, a field set by an
earlier row is never overwritten by a later row (first match wins), for each
of registration number, name and registration date. -/
theorem extraction_first_match_wins (r : RKNOperatorInfo)
    (rows : List (Except String String)) (v1 v2 v3 : String) :
    (r.registration_number = some v1 →
      (pwLoop r rows).1.registration_number = some v1) ∧
    (r.name = some v2 → (pwLoop r rows).1.name = some v2) ∧
    (r.registration_date = some v3 →
      (pwLoop r rows).1.registration_date = some v3) :=
  ⟨fun h => pwLoop_reg_some r rows v1 h,
   fun h => pwLoop_name_some r rows v2 h,
   fun h => pwLoop_date_some r rows v3 h⟩

/-- The record state before the C8 witness rows: all three fields already
populated by an earlier row. -/
def c8rec : RKNOperatorInfo :=
  { emptyInfo "7707083893" with
      found := true
      registration_number := some "11-222-333"
      name := some "ООО Первый оператор"
      registration_date := some "05.06.2007" }

/-- Later rows of the C8 witness, each carrying fresh pattern matches that
must not overwrite the earlier values. -/
def c8rows : List (Except String String) :=
  [Except.ok "99-888-777 ПАО Второй оператор данных 01.02.2003"]

/-- Witness for C8: running the loop over a later row with new matches keeps
the earlier registration number, name and date. -/
theorem extraction_first_match_wins_witness :
    (pwLoop c8rec c8rows).1.registration_number = some "11-222-333" ∧
    (pwLoop c8rec c8rows).1.name = some "ООО Первый оператор" ∧
    (pwLoop c8rec c8rows).1.registration_date = some "05.06.2007" :=
  ⟨(extraction_first_match_wins c8rec c8rows "11-222-333" "ООО Первый оператор"
      "05.06.2007").1 rfl,
   (extraction_first_match_wins c8rec c8rows "11-222-333" "ООО Первый оператор"
      "05.06.2007").2.1 rfl,
   (extraction_first_match_wins c8rec c8rows "11-222-333" "ООО Первый оператор"
      "05.06.2007").2.2 rfl⟩

theorem pwResults_released (w : PwWorld) (inn : String) :
    browserReleased (pwResults w inn) = true := by
  unfold pwResults browserReleased
  by_cases hC : zeroResultsMarker w.content = true
  · cases hCE : w.closeExn with
    | some msg => simp [hC, hCE]
    | none => simp [hC, hCE]
  · by_cases hR : w.rows.isEmpty = true
    · cases hCE : w.closeExn with
      | some msg => simp [hC, hR, hCE]
      | none => simp [hC, hR, hCE]
    · cases hL : (pwLoop (pwFoundRecord inn w.pageUrl) w.rows).2 with
      | some msg =>
        simp only [hC, hR, hL, Bool.not_eq_true, if_false, Bool.false_eq_true]
        simp [hL]
      | none =>
        cases hCE : w.closeExn with
        | some msg =>
          simp only [hC, hR, hL, hCE, Bool.not_eq_true, if_false, Bool.false_eq_true]
          simp [hL, hCE]
        | none =>
          simp only [hC, hR, hL, hCE, Bool.not_eq_true, if_false, Bool.false_eq_true]
          simp [hL, hCE]

/-- C9: on every path of the browser strategy that launches a browser, the
session is released before returning: the normal paths run the explicit
browser close, and the exception paths leave the `with sync_playwright()`
block, whose exit stops the driver and thereby the browser process. -/
theorem browser_always_released (w : PwWorld) (inn : String)
    (h : (check_rkn_registry_playwright w inn).launched = true) :
    browserReleased (check_rkn_registry_playwright w inn) = true := by
  unfold check_rkn_registry_playwright at *
  cases hP : w.hasPlaywright with
  | false =>
    rw [hP] at h
    simp at h
  | true =>
    cases hLE : w.launchExn with
    | some msg =>
      rw [hP, hLE] at h
      simp at h
    | none =>
      cases hG : w.gotoOutcome with
      | some e => cases e <;> simp [browserReleased, hP, hLE, hG]
      | none =>
        cases hF : w.innFieldFound with
        | false =>
          cases hCE : w.closeExn with
          | some msg => simp [browserReleased, hP, hLE, hG, hF, hCE]
          | none => simp [browserReleased, hP, hLE, hG, hF, hCE]
        | true =>
          cases hW : w.waitOutcome with
          | some e => cases e <;> simp [browserReleased, hP, hLE, hG, hF, hW]
          | none =>
            simp only [hP, hLE, hG, hF, hW, Bool.not_true, Bool.false_eq_true, if_false]
            exact pwResults_released w inn

/-- Witness for C9: a concrete launched run (here ending in the zero-results
path) releases the browser. -/
theorem browser_always_released_witness :
    (check_rkn_registry_playwright pwW0 "7707083893").launched = true ∧
    browserReleased (check_rkn_registry_playwright pwW0 "7707083893") = true :=
  ⟨by decide, browser_always_released pwW0 "7707083893" (by decide)⟩

theorem digit_ne_char (c x : Char) (h : c.isDigit = true) (hx : x.isDigit = false) :
    (c == x) = false := by
  cases hE : c == x with
  | false => rfl
  | true =>
    have hcx : c = x := eq_of_beq hE
    subst hcx
    rw [h] at hx
    simp at hx

theorem digit_not_pySpace (c : Char) (h : c.isDigit = true) : isPySpace c = false := by
  unfold isPySpace
  rw [digit_ne_char c ' ' h (by decide), digit_ne_char c '\t' h (by decide),
    digit_ne_char c '\n' h (by decide), digit_ne_char c '\r' h (by decide),
    digit_ne_char c (Char.ofNat 11) h (by decide), digit_ne_char c (Char.ofNat 12) h (by decide)]
  rfl

theorem filter_dropWhile_eq (p q : Char → Bool) (l : List Char)
    (h : ∀ x ∈ l, q x = true → p x = false) :
    (l.dropWhile q).filter p = l.filter p := by
  induction l with
  | nil => rfl
  | cons c cs ih =>
    by_cases hq : q c = true
    · rw [List.dropWhile_cons_of_pos hq]
      rw [ih (fun x hx hqq => h x (List.mem_cons_of_mem c hx) hqq)]
      rw [List.filter_cons_of_neg]
      simp [h c (List.mem_cons_self c cs) hq]
    · rw [List.dropWhile_cons_of_neg hq]

theorem filter_stripList (p : Char → Bool) (l : List Char)
    (h : ∀ x ∈ l, isPySpace x = true → p x = false) :
    (stripList l).filter p = l.filter p := by
  unfold stripList
  rw [List.filter_reverse]
  rw [filter_dropWhile_eq p isPySpace (l.dropWhile isPySpace).reverse
    (fun x hx hq => h x ((List.dropWhile_sublist isPySpace).subset (List.mem_reverse.mp hx)) hq)]
  rw [List.filter_reverse, List.reverse_reverse]
  exact filter_dropWhile_eq p isPySpace l h

theorem dropWhile_eq_self_of_all (q : Char → Bool) (l : List Char)
    (h : ∀ x ∈ l, q x = false) : l.dropWhile q = l := by
  cases l with
  | nil => rfl
  | cons c cs =>
    rw [List.dropWhile_cons_of_neg]
    simp [h c (List.mem_cons_self c cs)]

theorem stripList_eq_self (l : List Char) (h : ∀ x ∈ l, isPySpace x = false) :
    stripList l = l := by
  unfold stripList
  rw [dropWhile_eq_self_of_all isPySpace l h]
  rw [dropWhile_eq_self_of_all isPySpace l.reverse (fun x hx => h x (List.mem_reverse.mp hx))]
  exact List.reverse_reverse l

theorem pyNormalizeInn_digits (s : String)
    (h1 : s.toList.all (fun c => c.isDigit || c == ' ') = true) :
    pyNormalizeInn s = String.mk (s.toList.filter Char.isDigit) := by
  unfold pyNormalizeInn pyRemoveSpaces pyStrip
  have hmem : ∀ x ∈ s.toList, x.isDigit = true ∨ x = ' ' := by
    intro x hx
    have := (List.all_eq_true.mp h1) x hx
    rcases Bool.or_eq_true_iff.mp this with hd | hs
    · exact Or.inl hd
    · exact Or.inr (eq_of_beq hs)
  have hstep : (stripList s.toList).filter (fun c => !(c == ' ')) =
      s.toList.filter (fun c => !(c == ' ')) := by
    apply filter_stripList
    intro x hx hq
    rcases hmem x hx with hd | hs
    · rw [digit_not_pySpace x hd] at hq
      simp at hq
    · subst hs
      simp
  have hcongr : s.toList.filter (fun c => !(c == ' ')) = s.toList.filter Char.isDigit := by
    apply List.filter_congr
    intro x hx
    rcases hmem x hx with hd | hs
    · rw [digit_ne_char x ' ' hd (by decide), hd]
      rfl
    · subst hs
      rfl
  rw [show (String.mk (stripList s.toList)).toList = stripList s.toList from rfl]
  rw [hstep, hcongr]

theorem validate_digits (l : List Char)
    (hall : ∀ x ∈ l, x.isDigit = true)
    (hlen : l.length = 10 ∨ l.length = 12) :
    validate_inn (String.mk l) = true := by
  have hstrip : pyStrip (String.mk l) = String.mk l := by
    unfold pyStrip
    rw [show (String.mk l).toList = l from rfl]
    rw [stripList_eq_self l (fun x hx => digit_not_pySpace x (hall x hx))]
  have hisdigit : pyIsdigit (String.mk l) = true := by
    unfold pyIsdigit
    rw [show (String.mk l).toList = l from rfl]
    have hne : l.isEmpty = false := by
      cases l with
      | nil => rcases hlen with h | h <;> simp at h
      | cons c cs => rfl
    rw [hne, List.all_eq_true.mpr hall]
    rfl
  have hlength : (String.mk l).length = l.length := rfl
  unfold validate_inn
  rw [hstrip]
  dsimp only
  rw [hisdigit, hlength]
  rcases hlen with h | h <;> rw [h] <;> rfl

/-- C10: for an input consisting of decimal digits interleaved with spaces
whose digit count is 10 or 12, the normalization at line 284 removes all
spaces (interior ones included), the identifier is accepted by the validator,
and on every path the returned record's identifier equals the space-free
digit string. -/
theorem normalization_removes_spaces (pw : PwWorld) (http : HttpWorld) (s : String)
    (m : Method)
    (h1 : s.toList.all (fun c => c.isDigit || c == ' ') = true)
    (h2 : (s.toList.filter Char.isDigit).length = 10 ∨
          (s.toList.filter Char.isDigit).length = 12) :
    validate_inn (pyNormalizeInn s) = true ∧
    (check_rkn_registry pw http s m).1.inn = String.mk (s.toList.filter Char.isDigit) := by
  have hnorm := pyNormalizeInn_digits s h1
  have hval : validate_inn (pyNormalizeInn s) = true := by
    rw [hnorm]
    exact validate_digits (s.toList.filter Char.isDigit)
      (fun x hx => List.of_mem_filter hx) h2
  refine ⟨hval, ?_⟩
  rw [sel_inn pw http s m, hnorm]

/-- Witness for C10: the identifier "7707 0838 93" is accepted and recorded
as "7707083893". -/
theorem normalization_removes_spaces_witness :
    validate_inn (pyNormalizeInn "7707 0838 93") = true ∧
    (check_rkn_registry pwW0 httpW0 "7707 0838 93" Method.auto).1.inn =
      String.mk ("7707 0838 93".toList.filter Char.isDigit) :=
  normalization_removes_spaces pwW0 httpW0 "7707 0838 93" Method.auto
    (by decide) (by decide)
